import Mathlib

set_option linter.unusedVariables false

/-!
Verification of the invoice computation of `invoice_generator.py`
(KitchenCommand invoice test-suite generator).

Monetary amounts are modelled as exact rationals; `round(x, 2)` in the
source is modelled by `round2`, rounding to the nearest multiple of
1/100 with ties going to the even cent (Python's round-half-to-even).
Pseudo-random draws (`random.randint`, `random.sample`) are modelled by
an explicit `Rand` record constrained by what those library calls
guarantee; the current date read by `datetime.now()` is an explicit
`today` argument.
-/

namespace InvoiceGen

/-- A product catalog entry: `(item_code, description, pack, unit_price)`
tuples such as `SEAFOOD_PRODUCTS`. -/
structure Product where
  code : String
  desc : String
  pack : String
  unit_price : ℚ
deriving Repr, DecidableEq

/-- A line item: `(code, desc, pack, qty, unit_price)` as consumed by
`draw_line_items`. -/
structure LineItem where
  code : String
  desc : String
  pack : String
  qty : ℕ
  unit_price : ℚ
deriving Repr, DecidableEq

/-- `extended = qty * unit_price` (line 342 of the source; no rounding). -/
def extended (it : LineItem) : ℚ := it.qty * it.unit_price

/-- The subtotal accumulated by the loop of `draw_line_items`:
`subtotal = 0`, then `subtotal += extended` per item, in list order. -/
def subtotalOf (items : List LineItem) : ℚ :=
  items.foldl (fun acc it => acc + extended it) 0

/-- Round a rational to the nearest integer, ties to the even integer
(the behaviour of Python's `round` on exact values). -/
def roundHalfEven (q : ℚ) : ℤ :=
  let f := ⌊q⌋
  let r := q - f
  if r < 1/2 then f
  else if 1/2 < r then f + 1
  else if f % 2 = 0 then f else f + 1

/-- `round(q, 2)`: round to 2 decimal places. -/
def round2 (q : ℚ) : ℚ := (roundHalfEven (q * 100) : ℚ) / 100

/-- `freight = round(25 + (subtotal * 0.02), 2)` (line 486). -/
def genFreight (subtotal : ℚ) : ℚ := round2 (25 + subtotal * (2/100))

/-- `fuel = round(8 + (subtotal * 0.01), 2)` (line 487). -/
def genFuel (subtotal : ℚ) : ℚ := round2 (8 + subtotal * (1/100))

/-- The numbers produced by `draw_totals`: subtotal, freight and fuel as
passed in, `taxable = subtotal + freight + fuel`, `gst = taxable * 0.05`,
`qst = taxable * 0.09975`, `total = taxable + gst + qst`. -/
structure Totals where
  subtotal : ℚ
  freight : ℚ
  fuel : ℚ
  taxable : ℚ
  gst : ℚ
  qst : ℚ
  total : ℚ
deriving Repr, DecidableEq

/-- `draw_totals(c, y, width, subtotal, supplier_key, freight, fuel)`:
the computational content (lines 394-414).  The freight and fuel
parameters are used exactly as supplied; their defaults in the source
are `freight=35.00, fuel=12.50`. -/
def draw_totals (subtotal freight fuel : ℚ) : Totals :=
  let taxable := subtotal + freight + fuel
  let gst := taxable * (5/100)
  let qst := taxable * (9975/100000)
  { subtotal := subtotal
    freight := freight
    fuel := fuel
    taxable := taxable
    gst := gst
    qst := qst
    total := taxable + gst + qst }

/-- Default freight of `draw_totals` when the caller passes none. -/
def draw_totals_default_freight : ℚ := 35

/-- Default fuel of `draw_totals` when the caller passes none. -/
def draw_totals_default_fuel : ℚ := 25/2

/-- Description as rendered by `draw_line_items` (lines 354-355):
`if len(desc) > 32: desc = desc[:30] + '..'`. -/
def renderDesc (desc : String) : String :=
  if desc.length > 32 then desc.take 30 ++ ".." else desc

/-- One rendered row of the line-item table: code, (possibly truncated)
description, pack, quantity, unit price, extended amount. -/
structure Row where
  code : String
  desc : String
  pack : String
  qty : ℕ
  unit_price : ℚ
  extended : ℚ
deriving Repr, DecidableEq

/-- The row drawn for one line item. -/
def drawRow (it : LineItem) : Row :=
  { code := it.code
    desc := renderDesc it.desc
    pack := it.pack
    qty := it.qty
    unit_price := it.unit_price
    extended := extended it }

/-- Outcomes of the pseudo-random draws of the no-explicit-items path:
`num_items = random.randint(8, 15)`, the list returned by
`random.sample(products_list, min(num_items, len(products_list)))`, and
the `random.randint(1, 5)` quantity drawn for each sampled product. -/
structure Rand where
  numItems : ℕ
  sample : List Product
  qtys : List ℕ
deriving Repr, DecidableEq

/-- What the random library guarantees about the draws against a given
catalog: `randint(8,15)` is in `[8,15]`; `sample` returns
`min(num_items, len(products))` distinct entries of the catalog without
replacement; each quantity from `randint(1,5)` is in `[1,5]`. -/
def Rand.Wf (r : Rand) (products : List Product) : Prop :=
  8 ≤ r.numItems ∧ r.numItems ≤ 15 ∧
  r.sample.length = min r.numItems products.length ∧
  r.sample.Nodup ∧ (∀ p ∈ r.sample, p ∈ products) ∧
  r.qtys.length = r.sample.length ∧
  (∀ q ∈ r.qtys, 1 ≤ q ∧ q ≤ 5)

instance (r : Rand) (products : List Product) : Decidable (r.Wf products) := by
  unfold Rand.Wf; infer_instance

/-- The item list built by the randomized path (lines 473-480):
each sampled product paired with its drawn quantity. -/
def selectItems (r : Rand) : List LineItem :=
  (r.sample.zip r.qtys).map fun pq =>
    { code := pq.1.code
      desc := pq.1.desc
      pack := pq.1.pack
      qty := pq.2
      unit_price := pq.1.unit_price }

/-- The catalog entry a line item was built from. -/
def itemProduct (it : LineItem) : Product :=
  { code := it.code, desc := it.desc, pack := it.pack, unit_price := it.unit_price }

/-- A supplier profile, as in the `SUPPLIERS` table. -/
structure Supplier where
  name : String
  tagline : String
  address : String
  city : String
  phone : String
  fax : String
  website : String
  gst : String
  qst : String
  terms : String
deriving Repr, DecidableEq

/-- The fixed customer block (`CUSTOMER`). -/
structure Customer where
  name : String
  attention : String
  address : String
  city : String
  phone : String
  customer_no : String
deriving Repr, DecidableEq

def CUSTOMER : Customer :=
  { name := "Bistro Le Gourmet Inc."
    attention := "Chef Marc-André Tremblay"
    address := "1234, rue Sainte-Catherine Est"
    city := "Montréal, QC H2L 2H5"
    phone := "514-555-1234"
    customer_no := "MTL-458923" }

/-- The content drawn onto the page by `generate_invoice`: header
metadata (including the date taken from the clock), the fixed customer
blocks, the line-item rows, the totals block and the footer data. -/
structure Document where
  supplierName : String
  tagline : String
  contactLine : String
  invoiceNum : String
  dateStr : String
  customerNo : String
  poNum : String
  billTo : Customer
  shipTo : Customer
  rows : List Row
  totals : Totals
  terms : String
  gstNumber : String
  qstNumber : String
deriving Repr, DecidableEq

/-- `generate_invoice(supplier_key, products_list, invoice_num, po_num,
output_dir, selected_items)` (lines 455-494), with the ambient state it
reads made explicit: `today` is the `datetime.now()` date string and
`r` the outcome of the random draws (consulted only when
`selected_items is None`).  Returns the drawn document, the output
filename and the grand total. -/
def generate_invoice (supplier : Supplier) (supplier_key : String)
    (products_list : List Product) (invoice_num po_num output_dir : String)
    (selected_items : Option (List LineItem)) (today : String) (r : Rand) :
    Document × String × ℚ :=
  let items := match selected_items with
    | some its => its
    | none => selectItems r
  let subtotal := subtotalOf items
  let freight := genFreight subtotal
  let fuel := genFuel subtotal
  let t := draw_totals subtotal freight fuel
  let doc : Document :=
    { supplierName := supplier.name
      tagline := supplier.tagline
      contactLine := supplier.address ++ " | " ++ supplier.city ++ " | Tél: "
        ++ supplier.phone ++ " | " ++ supplier.website
      invoiceNum := invoice_num
      dateStr := today
      customerNo := CUSTOMER.customer_no
      poNum := po_num
      billTo := CUSTOMER
      shipTo := CUSTOMER
      rows := items.map drawRow
      totals := t
      terms := supplier.terms
      gstNumber := supplier.gst
      qstNumber := supplier.qst }
  let filename := output_dir ++ "/" ++ supplier_key.toUpper ++ "_INV_"
    ++ invoice_num ++ ".pdf"
  (doc, filename, t.total)

/-- The explicit seafood item list of `main` (lines 511-522). -/
def seafood_items : List LineItem :=
  [ ⟨"SF-10234", "SAUMON ATLANTIQUE FRAIS 10-12LB", "1/PC", 3, 1485/100⟩,
    ⟨"SF-10241", "SAUMON ATLANTIQUE FILET S/P", "KG", 8, 2250/100⟩,
    ⟨"SF-10425", "CREVETTES 16/20 TIGRE CRUES", "2/5LB", 4, 8950/100⟩,
    ⟨"SF-10426", "CREVETTES 21/25 TIGRE CUITES", "2/5LB", 3, 7825/100⟩,
    ⟨"SF-10512", "HOMARD VIVANT 1.25LB", "PC", 12, 2895/100⟩,
    ⟨"SF-10623", "MOULES DE L'IPE 2LB", "1/2LB", 20, 845/100⟩,
    ⟨"SF-10731", "PÉTONCLES U10 DRY PACK", "1/5LB", 2, 12500/100⟩,
    ⟨"SF-10821", "FILET MORUE FRAÎCHE", "KG", 5, 1875/100⟩,
    ⟨"SF-10912", "THON ALBACORE LOIN AAA", "KG", 4, 3850/100⟩,
    ⟨"SF-11245", "HUÎTRES MALPEQUE #1", "100CT", 2, 8500/100⟩ ]

/-- The `norref` entry of the `SUPPLIERS` table. -/
def norref : Supplier :=
  { name := "Les Pêcheries Norref Québec Inc."
    tagline := "Une division de Colabor"
    address := "4900, rue Molson"
    city := "Montréal, QC H1Y 3J4"
    phone := "514-906-0931"
    fax := "514-906-0935"
    website := "norref.com"
    gst := "845 291 567 RT0001"
    qst := "1214 567 890 TQ0001"
    terms := "Net 14 jours / Net 14 Days" }

/-! ### Helper lemmas -/

theorem foldl_add_extended (l : List LineItem) (a : ℚ) :
    l.foldl (fun acc it => acc + extended it) a = a + (l.map extended).sum := by
  induction l generalizing a with
  | nil => simp
  | cons x xs ih => simp [List.foldl, ih, add_assoc]

theorem subtotalOf_eq_sum (items : List LineItem) :
    subtotalOf items = (items.map extended).sum := by
  simpa using foldl_add_extended items 0

theorem roundHalfEven_intCast (n : ℤ) : roundHalfEven (n : ℚ) = n := by
  unfold roundHalfEven
  norm_num

theorem round2_int_div_100 (n : ℤ) : round2 ((n : ℚ) / 100) = (n : ℚ) / 100 := by
  unfold round2
  rw [div_mul_cancel₀ _ (by norm_num : (100 : ℚ) ≠ 0), roundHalfEven_intCast]

/-! ### Claims -/

/-- C1: for every line-item list with the computed subtotal, freight and
fuel amounts, tax A (GST) is 0.05 times the taxable base
subtotal + freight + fuel, tax B (QST) is 0.09975 times that same base
(additive, not compounded), and the returned grand total is
base + tax A + tax B. -/
theorem c1_taxes_on_common_base (supplier : Supplier) (key : String)
    (products : List Product) (inv po dir today : String) (r : Rand)
    (items : List LineItem) :
    ((generate_invoice supplier key products inv po dir (some items) today r).1.totals.gst
      = (5/100) * (subtotalOf items + genFreight (subtotalOf items)
          + genFuel (subtotalOf items))) ∧
    ((generate_invoice supplier key products inv po dir (some items) today r).1.totals.qst
      = (9975/100000) * (subtotalOf items + genFreight (subtotalOf items)
          + genFuel (subtotalOf items))) ∧
    ((generate_invoice supplier key products inv po dir (some items) today r).2.2
      = (subtotalOf items + genFreight (subtotalOf items) + genFuel (subtotalOf items))
        + (5/100) * (subtotalOf items + genFreight (subtotalOf items)
          + genFuel (subtotalOf items))
        + (9975/100000) * (subtotalOf items + genFreight (subtotalOf items)
          + genFuel (subtotalOf items))) := by
  refine ⟨?_, ?_, ?_⟩ <;> simp [generate_invoice, draw_totals] <;> ring

/-- C2: when no freight/fuel override exists, the freight used by the
invoice computation is round(25 + 0.02·S, 2) and the fuel is
round(8 + 0.01·S, 2), S being the computed subtotal. -/
theorem c2_freight_fuel_formulas (supplier : Supplier) (key : String)
    (products : List Product) (inv po dir today : String) (r : Rand)
    (items : List LineItem) :
    ((generate_invoice supplier key products inv po dir (some items) today r).1.totals.freight
      = round2 (25 + (2/100) * subtotalOf items)) ∧
    ((generate_invoice supplier key products inv po dir (some items) today r).1.totals.fuel
      = round2 (8 + (1/100) * subtotalOf items)) := by
  constructor <;>
    · show round2 _ = round2 _
      congr 1
      ring

/-- C3: the computed subtotal is the sum of quantity × unit price over
the items, and it is invariant under any permutation of the list. -/
theorem c3_subtotal_sum_perm (items items' : List LineItem)
    (h : items.Perm items') :
    subtotalOf items = (items.map fun it => (it.qty : ℚ) * it.unit_price).sum ∧
    subtotalOf items = subtotalOf items' := by
  constructor
  · simpa [extended] using subtotalOf_eq_sum items
  · rw [subtotalOf_eq_sum, subtotalOf_eq_sum]
    exact (h.map extended).sum_eq

/-- Witness for C3 on a concrete two-item list and its swap. -/
theorem c3_witness :
    ([⟨"A", "ITEM A", "CS", 2, 5⟩, ⟨"B", "ITEM B", "CS", 3, 7⟩] : List LineItem).Perm
      [⟨"B", "ITEM B", "CS", 3, 7⟩, ⟨"A", "ITEM A", "CS", 2, 5⟩] ∧
    subtotalOf [⟨"A", "ITEM A", "CS", 2, 5⟩, ⟨"B", "ITEM B", "CS", 3, 7⟩]
      = (([⟨"A", "ITEM A", "CS", 2, 5⟩, ⟨"B", "ITEM B", "CS", 3, 7⟩] : List LineItem).map
          fun it => (it.qty : ℚ) * it.unit_price).sum ∧
    subtotalOf [⟨"A", "ITEM A", "CS", 2, 5⟩, ⟨"B", "ITEM B", "CS", 3, 7⟩]
      = subtotalOf [⟨"B", "ITEM B", "CS", 3, 7⟩, ⟨"A", "ITEM A", "CS", 2, 5⟩] := by
  have hp : ([⟨"A", "ITEM A", "CS", 2, 5⟩, ⟨"B", "ITEM B", "CS", 3, 7⟩] : List LineItem).Perm
      [⟨"B", "ITEM B", "CS", 3, 7⟩, ⟨"A", "ITEM A", "CS", 2, 5⟩] := List.Perm.swap _ _ _
  exact ⟨hp, (c3_subtotal_sum_perm _ _ hp).1, (c3_subtotal_sum_perm _ _ hp).2⟩

/-- C5: freight and fuel values supplied to the totals computation are
used unmodified — the taxable base adds exactly the supplied values and
the round(25 + 0.02·S, 2) / round(8 + 0.01·S, 2) formulas play no role
in `draw_totals`, whatever the supplied values are. -/
theorem c5_override_used_unmodified (s f u : ℚ) :
    (draw_totals s f u).freight = f ∧
    (draw_totals s f u).fuel = u ∧
    (draw_totals s f u).taxable = s + f + u ∧
    (draw_totals s f u).total = (s + f + u) * (114975/100000) := by
  refine ⟨rfl, rfl, rfl, ?_⟩
  show (s + f + u) + (s + f + u) * (5/100) + (s + f + u) * (9975/100000) = _
  ring

/-- C7: for a line item with integer quantity and a unit price of whole
cents, the extended amount computed by the code (qty × price, no
rounding) already equals qty × price rounded to 2 decimals. -/
theorem c7_extended_rounded (it : LineItem) (cents : ℤ)
    (hq : 0 < it.qty) (hp : it.unit_price = (cents : ℚ) / 100) :
    extended it = round2 ((it.qty : ℚ) * it.unit_price) ∧
    extended it = (it.qty : ℚ) * it.unit_price := by
  have key : (it.qty : ℚ) * it.unit_price = ((it.qty * cents : ℤ) : ℚ) / 100 := by
    rw [hp]; push_cast; ring
  refine ⟨?_, rfl⟩
  rw [extended, key, round2_int_div_100]

/-- Witness for C7 on a concrete item (3 × $14.85). -/
theorem c7_witness :
    (0 < (3 : ℕ)) ∧
    ((⟨"SF-10234", "SAUMON ATLANTIQUE FRAIS 10-12LB", "1/PC", 3, 1485/100⟩ :
        LineItem).unit_price = ((1485 : ℤ) : ℚ) / 100) ∧
    extended ⟨"SF-10234", "SAUMON ATLANTIQUE FRAIS 10-12LB", "1/PC", 3, 1485/100⟩
      = round2 ((3 : ℚ) * (1485/100)) := by
  refine ⟨by norm_num, by norm_num, ?_⟩
  have h := (c7_extended_rounded
    ⟨"SF-10234", "SAUMON ATLANTIQUE FRAIS 10-12LB", "1/PC", 3, 1485/100⟩
    1485 (by norm_num) (by norm_num)).1
  simpa using h

/-- C8: a description longer than 32 characters is rendered as its
first 30 characters followed by two dots; otherwise it is rendered
unchanged. -/
theorem c8_description_truncation (s : String) :
    (32 < s.length → renderDesc s = s.take 30 ++ "..") ∧
    (s.length ≤ 32 → renderDesc s = s) := by
  constructor
  · intro h
    simp [renderDesc, h]
  · intro h
    simp [renderDesc, Nat.not_lt.mpr h]

/-- Witness for C8: a 33-character description is truncated, a short one
is kept. -/
theorem c8_witness :
    (32 < ("ABCDEFGHIJKLMNOPQRSTUVWXYZ0123456" : String).length ∧
      renderDesc "ABCDEFGHIJKLMNOPQRSTUVWXYZ0123456"
        = ("ABCDEFGHIJKLMNOPQRSTUVWXYZ0123456" : String).take 30 ++ "..") ∧
    (("HOMARD VIVANT 1.25LB" : String).length ≤ 32 ∧
      renderDesc "HOMARD VIVANT 1.25LB" = "HOMARD VIVANT 1.25LB") := by
  refine ⟨⟨by decide, (c8_description_truncation _).1 (by decide)⟩,
    ⟨by decide, (c8_description_truncation _).2 (by decide)⟩⟩

/-- C10: with an explicit item list supplied, the returned grand total
depends only on that list — supplier profile, catalog, invoice number,
PO number, output directory, date and random state may all differ. -/
theorem c10_total_only_from_items
    (sup1 sup2 : Supplier) (k1 k2 : String) (p1 p2 : List Product)
    (inv1 inv2 po1 po2 dir1 dir2 today1 today2 : String) (r1 r2 : Rand)
    (items : List LineItem) :
    (generate_invoice sup1 k1 p1 inv1 po1 dir1 (some items) today1 r1).2.2 =
    (generate_invoice sup2 k2 p2 inv2 po2 dir2 (some items) today2 r2).2.2 := rfl

theorem seafood_subtotal : subtotalOf seafood_items = 200145/100 := by
  norm_num [subtotalOf, seafood_items, extended, List.foldl]

theorem seafood_freight : genFreight (200145/100) = 6503/100 := by
  have harg : (25 + (200145/100 : ℚ) * (2/100)) * 100 = 65029/10 := by norm_num
  have hfl : ⌊(65029/10 : ℚ)⌋ = 6502 := by
    rw [Int.floor_eq_iff]
    norm_num
  rw [genFreight, round2, harg, roundHalfEven]
  rw [hfl]
  norm_num

theorem seafood_fuel : genFuel (200145/100) = 2801/100 := by
  have harg : (8 + (200145/100 : ℚ) * (1/100)) * 100 = 56029/20 := by norm_num
  have hfl : ⌊(56029/20 : ℚ)⌋ = 2801 := by
    rw [Int.floor_eq_iff]
    norm_num
  rw [genFuel, round2, harg, roundHalfEven]
  rw [hfl]
  norm_num

/-- C4 counterexample: the fixed seafood scenario's items sum to
$2,001.45, not the $1,855.75 the claim states. -/
theorem c4_counterexample :
    subtotalOf seafood_items = 200145/100 ∧
    (200145/100 : ℚ) ≠ 185575/100 := by
  exact ⟨seafood_subtotal, by norm_num⟩

/-- C4 amended: the fixed seafood scenario yields subtotal $2,001.45,
freight $65.03, fuel $28.01, taxable base $2,094.49, and grand total
$2,408.1398775 = 2094.49 × 1.14975, matching the tax formulas. -/
theorem c4_seafood_scenario :
    subtotalOf seafood_items = 200145/100 ∧
    genFreight (subtotalOf seafood_items) = 6503/100 ∧
    genFuel (subtotalOf seafood_items) = 2801/100 ∧
    ((generate_invoice norref "norref" [] "NRF-78234" "PO-2025-1247"
        "/home/claude/invoices" (some seafood_items) "09/10/2025"
        ⟨8, [], []⟩).1.totals.taxable = 209449/100) ∧
    ((generate_invoice norref "norref" [] "NRF-78234" "PO-2025-1247"
        "/home/claude/invoices" (some seafood_items) "09/10/2025"
        ⟨8, [], []⟩).2.2 = 963255951/400000) := by
  have h1 := seafood_subtotal
  refine ⟨h1, ?_, ?_, ?_, ?_⟩
  · rw [h1]; exact seafood_freight
  · rw [h1]; exact seafood_fuel
  · show subtotalOf seafood_items + genFreight (subtotalOf seafood_items)
      + genFuel (subtotalOf seafood_items) = 209449/100
    rw [h1, seafood_freight, seafood_fuel]
    norm_num
  · show (subtotalOf seafood_items + genFreight (subtotalOf seafood_items)
        + genFuel (subtotalOf seafood_items))
      + (subtotalOf seafood_items + genFreight (subtotalOf seafood_items)
        + genFuel (subtotalOf seafood_items)) * (5/100)
      + (subtotalOf seafood_items + genFreight (subtotalOf seafood_items)
        + genFuel (subtotalOf seafood_items)) * (9975/100000) = 963255951/400000
    rw [h1, seafood_freight, seafood_fuel]
    norm_num

/-- C6 counterexample: on a one-product catalog the randomized path can
yield a single line item, so the claimed lower bound of 8 fails for
some catalogs. -/
theorem c6_counterexample :
    Rand.Wf ⟨8, [⟨"P1", "PRODUCT ONE", "CS", 10⟩], [1]⟩
      [⟨"P1", "PRODUCT ONE", "CS", 10⟩] ∧
    (selectItems ⟨8, [⟨"P1", "PRODUCT ONE", "CS", 10⟩], [1]⟩).length = 1 ∧
    ¬ 8 ≤ (selectItems ⟨8, [⟨"P1", "PRODUCT ONE", "CS", 10⟩], [1]⟩).length := by
  refine ⟨?_, by decide, by decide⟩
  refine ⟨by decide, by decide, by decide, by decide, ?_, by decide, ?_⟩
  · intro p hp
    simpa using hp
  · intro q hq
    simp at hq
    simp [hq]

/-- C6 amended: on any catalog with at least 8 products, the randomized
path yields between 8 and 15 line items, built from distinct products
chosen without replacement, each with quantity between 1 and 5. -/
theorem c6_random_selection (products : List Product) (r : Rand)
    (hwf : r.Wf products) (hcat : 8 ≤ products.length) :
    8 ≤ (selectItems r).length ∧ (selectItems r).length ≤ 15 ∧
    ((selectItems r).map itemProduct).Nodup ∧
    ∀ it ∈ selectItems r, 1 ≤ it.qty ∧ it.qty ≤ 5 := by
  obtain ⟨h8, h15, hlen, hnd, hsub, hql, hq⟩ := hwf
  have hzlen : (r.sample.zip r.qtys).length = r.sample.length := by
    rw [List.length_zip, hql, min_self]
  have hslen : (selectItems r).length = r.sample.length := by
    rw [selectItems, List.length_map, hzlen]
  have hmap : ((selectItems r).map itemProduct) = r.sample := by
    rw [selectItems, List.map_map]
    have : (itemProduct ∘ fun pq : Product × ℕ =>
        ({ code := pq.1.code, desc := pq.1.desc, pack := pq.1.pack,
           qty := pq.2, unit_price := pq.1.unit_price } : LineItem))
        = Prod.fst := by
      funext pq
      rfl
    rw [this]
    exact List.map_fst_zip r.sample r.qtys (le_of_eq hql.symm)
  refine ⟨?_, ?_, ?_, ?_⟩
  · rw [hslen, hlen]
    exact le_min h8 hcat
  · rw [hslen, hlen]
    exact le_trans (min_le_left _ _) h15
  · rw [hmap]
    exact hnd
  · intro it hit
    rw [selectItems, List.mem_map] at hit
    obtain ⟨pq, hpq, rfl⟩ := hit
    exact hq pq.2 (List.of_mem_zip hpq).2

/-- Witness for C6 amended: a concrete 8-product catalog sampled whole. -/
theorem c6_witness :
    Rand.Wf
      ⟨8,
        [⟨"P1", "D1", "CS", 1⟩, ⟨"P2", "D2", "CS", 2⟩, ⟨"P3", "D3", "CS", 3⟩,
         ⟨"P4", "D4", "CS", 4⟩, ⟨"P5", "D5", "CS", 5⟩, ⟨"P6", "D6", "CS", 6⟩,
         ⟨"P7", "D7", "CS", 7⟩, ⟨"P8", "D8", "CS", 8⟩],
        [1, 2, 3, 4, 5, 1, 2, 3]⟩
      [⟨"P1", "D1", "CS", 1⟩, ⟨"P2", "D2", "CS", 2⟩, ⟨"P3", "D3", "CS", 3⟩,
       ⟨"P4", "D4", "CS", 4⟩, ⟨"P5", "D5", "CS", 5⟩, ⟨"P6", "D6", "CS", 6⟩,
       ⟨"P7", "D7", "CS", 7⟩, ⟨"P8", "D8", "CS", 8⟩] ∧
    8 ≤ (selectItems
      ⟨8,
        [⟨"P1", "D1", "CS", 1⟩, ⟨"P2", "D2", "CS", 2⟩, ⟨"P3", "D3", "CS", 3⟩,
         ⟨"P4", "D4", "CS", 4⟩, ⟨"P5", "D5", "CS", 5⟩, ⟨"P6", "D6", "CS", 6⟩,
         ⟨"P7", "D7", "CS", 7⟩, ⟨"P8", "D8", "CS", 8⟩],
        [1, 2, 3, 4, 5, 1, 2, 3]⟩).length := by
  have hwf : Rand.Wf
      ⟨8,
        [⟨"P1", "D1", "CS", 1⟩, ⟨"P2", "D2", "CS", 2⟩, ⟨"P3", "D3", "CS", 3⟩,
         ⟨"P4", "D4", "CS", 4⟩, ⟨"P5", "D5", "CS", 5⟩, ⟨"P6", "D6", "CS", 6⟩,
         ⟨"P7", "D7", "CS", 7⟩, ⟨"P8", "D8", "CS", 8⟩],
        [1, 2, 3, 4, 5, 1, 2, 3]⟩
      [⟨"P1", "D1", "CS", 1⟩, ⟨"P2", "D2", "CS", 2⟩, ⟨"P3", "D3", "CS", 3⟩,
       ⟨"P4", "D4", "CS", 4⟩, ⟨"P5", "D5", "CS", 5⟩, ⟨"P6", "D6", "CS", 6⟩,
       ⟨"P7", "D7", "CS", 7⟩, ⟨"P8", "D8", "CS", 8⟩] := by
    refine ⟨by decide, by decide, by decide, by decide, fun p hp => hp, by decide, ?_⟩
    intro q hq
    fin_cases hq <;> simp
  exact ⟨hwf, (c6_random_selection _ _ hwf (by decide)).1⟩

/-- C9 counterexample: two invocations with the same supplier profile,
item list, invoice number and PO number but run on different clock
dates produce different documents — the rendered issue date comes from
`datetime.now()`, state outside the claimed inputs. -/
theorem c9_counterexample :
    (generate_invoice norref "norref" [] "NRF-78234" "PO-2025-1247"
        "/home/claude/invoices" (some seafood_items) "01/01/2025"
        ⟨8, [], []⟩).1 ≠
    (generate_invoice norref "norref" [] "NRF-78234" "PO-2025-1247"
        "/home/claude/invoices" (some seafood_items) "02/01/2025"
        ⟨8, [], []⟩).1 := by
  intro h
  have hd := congrArg Document.dateStr h
  simp [generate_invoice] at hd

/-- C9 amended: with an explicit item list, the returned grand total is
the same across any two invocations sharing the item list; the
documents coincide as soon as the clock date also coincides (all other
inputs being the supplier profile, invoice number and PO number of the
claim). -/
theorem c9_determined_given_date (sup : Supplier) (k : String)
    (p : List Product) (inv po dir : String) (items : List LineItem)
    (t1 t2 : String) (r1 r2 : Rand) :
    ((generate_invoice sup k p inv po dir (some items) t1 r1).2.2 =
      (generate_invoice sup k p inv po dir (some items) t2 r2).2.2) ∧
    (t1 = t2 →
      (generate_invoice sup k p inv po dir (some items) t1 r1).1 =
      (generate_invoice sup k p inv po dir (some items) t2 r2).1) := by
  refine ⟨rfl, ?_⟩
  intro h
  subst h
  rfl

/-- Witness for C9 amended at a concrete invocation pair sharing the
clock date. -/
theorem c9_witness :
    ((generate_invoice norref "norref" [] "NRF-78234" "PO-2025-1247"
        "/home/claude/invoices" (some seafood_items) "09/10/2025"
        ⟨8, [], []⟩).2.2 =
      (generate_invoice norref "norref" [] "NRF-78234" "PO-2025-1247"
        "/home/claude/invoices" (some seafood_items) "09/10/2025"
        ⟨9, [], []⟩).2.2) ∧
    ((generate_invoice norref "norref" [] "NRF-78234" "PO-2025-1247"
        "/home/claude/invoices" (some seafood_items) "09/10/2025"
        ⟨8, [], []⟩).1 =
      (generate_invoice norref "norref" [] "NRF-78234" "PO-2025-1247"
        "/home/claude/invoices" (some seafood_items) "09/10/2025"
        ⟨9, [], []⟩).1) := by
  have h := c9_determined_given_date norref "norref" [] "NRF-78234"
    "PO-2025-1247" "/home/claude/invoices" seafood_items
    "09/10/2025" "09/10/2025" ⟨8, [], []⟩ ⟨9, [], []⟩
  exact ⟨h.1, h.2 rfl⟩

end InvoiceGen
